import Mathlib

set_option maxHeartbeats 1000000

/-!
Shallow embedding of the qa_auto repository:
- `src/main.py`: test models, `run_case_playwright`, `run_all`, `append_run_history`;
- `src/web/app.py`: `get_runs`, `get_latest_run`, `calc_cards`,
  `fetch_latest_test_history_from_github`, `sync_github`;
- `src/loaders/sheets_loader.py`: the row-normalization core of `load_cases_from_sheets`.

External effects (the Playwright page driver, the wall clock, the HTTP client, the
zip reader, the JSON file on disk) are passed in explicitly: the driver as an
`Except String String` outcome (exception message or page title), the clock as
strings/naturals, the store as a `Store` value, the GitHub exchange as a `GhEnv`
record of the observed responses.
-/

namespace QaAuto

/-- The `TestCase` dataclass of `src/main.py`. -/
structure TestCase where
  id : String
  engine : String
  name : String
  url : String
  assert_title_contains : String
  deriving DecidableEq

/-- The `TestResult` dataclass of `src/main.py`; `title` and `error` default to `None`. -/
structure TestResult where
  id : String
  engine : String
  name : String
  url : String
  status : String
  started_at : String
  finished_at : String
  duration_ms : Nat
  title : Option String := none
  error : Option String := none
  deriving DecidableEq

/-- `charsLeads ns hs` is true when `ns` occurs at the front of `hs`. -/
def charsLeads : List Char → List Char → Bool
  | [], _ => true
  | _ :: _, [] => false
  | n :: ns, h :: hs => n == h && charsLeads ns hs

/-- `charsHas ns hs` is true when `ns` occurs contiguously somewhere in `hs`. -/
def charsHas (ns : List Char) : List Char → Bool
  | [] => charsLeads ns []
  | h :: t => charsLeads ns (h :: t) || charsHas ns t

/-- Python's `needle in haystack` on strings: exact, case-sensitive substring test. -/
def pyIn (needle haystack : String) : Bool :=
  charsHas needle.toList haystack.toList

/-- Drop leading whitespace characters. -/
def dropWhileWs : List Char → List Char
  | [] => []
  | c :: cs => if c.isWhitespace then dropWhileWs cs else c :: cs

/-- Python's `str.strip()`: remove leading and trailing whitespace (the exotic
Unicode whitespace Python also strips is not modelled). -/
def pyStrip (s : String) : String :=
  ((dropWhileWs (dropWhileWs s.toList).reverse).reverse).asString

/-- Python's `str.lower()` (ASCII case mapping). -/
def pyLower (s : String) : String :=
  (s.toList.map Char.toLower).asString

/-- `run_case_playwright` of `src/main.py` (lines 111-163).  The page driver's
navigation (`page.goto` + `page.title()`) is the `nav` argument: `Except.ok title`
when navigation succeeded and returned a title, `Except.error e` when any step of
driver setup, navigation, timeout, or teardown raised (the `except Exception` arm,
with `e` the exception's string form).  The wall-clock reads `utc_now_iso()` and the
elapsed-millisecond computation are the `started`, `finished`, `durationMs`
arguments. -/
def run_case_playwright (c : TestCase) (nav : Except String String)
    (started finished : String) (durationMs : Nat) : TestResult :=
  match nav with
  | Except.ok title =>
    if !(pyIn c.assert_title_contains title) then
      { id := c.id, engine := c.engine, name := c.name, url := c.url,
        status := "fail", started_at := started, finished_at := finished,
        duration_ms := durationMs, title := some title,
        error := some ("Title assertion failed. Expected to contain: \x27"
          ++ c.assert_title_contains ++ "\x27, Actual: \x27" ++ title ++ "\x27") }
    else
      { id := c.id, engine := c.engine, name := c.name, url := c.url,
        status := "pass", started_at := started, finished_at := finished,
        duration_ms := durationMs, title := some title, error := none }
  | Except.error e =>
    { id := c.id, engine := c.engine, name := c.name, url := c.url,
      status := "error", started_at := started, finished_at := finished,
      duration_ms := durationMs, title := none, error := some e }

/-- Ambient world for a run: the page-driver outcome per case, and the clock reads
used by `run_case_playwright` (`started`/`finished`/`durMs`) and by the
unsupported-engine branch of `run_all` (its two `utc_now_iso()` calls, `now1` and
`now2`). -/
structure Env where
  nav : TestCase → Except String String
  started : TestCase → String
  finished : TestCase → String
  durMs : TestCase → Nat
  now1 : TestCase → String
  now2 : TestCase → String

/-- The unsupported-engine `TestResult` built inline in `run_all` (lines 173-185 of
`src/main.py`); `title` is left at its `None` default there. -/
def unsupported_result (c : TestCase) (t1 t2 : String) : TestResult :=
  { id := c.id, engine := c.engine, name := c.name, url := c.url,
    status := "error", started_at := t1, finished_at := t2,
    duration_ms := 0, title := none,
    error := some ("Unsupported engine: " ++ c.engine) }

/-- The body of `run_all`'s loop for one case: dispatch on `case.engine`. -/
def run_one (env : Env) (c : TestCase) : TestResult :=
  if c.engine ≠ "playwright" then unsupported_result c (env.now1 c) (env.now2 c)
  else run_case_playwright c (env.nav c) (env.started c) (env.finished c) (env.durMs c)

/-- `run_all` of `src/main.py` (lines 169-193), instrumented with a counter of how
many times `run_case_playwright` (hence the page driver) is invoked. -/
def run_all_instr (env : Env) : List TestCase → List TestResult × Nat
  | [] => ([], 0)
  | c :: rest =>
    let tail := run_all_instr env rest
    if c.engine ≠ "playwright" then
      (unsupported_result c (env.now1 c) (env.now2 c) :: tail.1, tail.2)
    else
      (run_case_playwright c (env.nav c) (env.started c) (env.finished c) (env.durMs c)
        :: tail.1, tail.2 + 1)

/-- The result list of `run_all`. -/
def run_all (env : Env) (cases : List TestCase) : List TestResult :=
  (run_all_instr env cases).1

/-- `run_all` is the per-case dispatch mapped over the input, in input order. -/
theorem run_all_eq_map (env : Env) (cases : List TestCase) :
    run_all env cases = cases.map (run_one env) := by
  induction cases with
  | nil => rfl
  | cons c rest ih =>
    simp only [run_all, run_all_instr, List.map] at ih ⊢
    by_cases h : c.engine ≠ "playwright"
    · simp [h, run_one, ih]
    · simp [h, run_one, ih]

/-- Every branch of the per-case dispatch copies `id`, `engine`, `name`, `url` from
the case. -/
theorem run_one_copies (env : Env) (c : TestCase) :
    (run_one env c).id = c.id ∧ (run_one env c).engine = c.engine ∧
    (run_one env c).name = c.name ∧ (run_one env c).url = c.url := by
  unfold run_one unsupported_result run_case_playwright
  split
  · exact ⟨rfl, rfl, rfl, rfl⟩
  · split
    · split <;> exact ⟨rfl, rfl, rfl, rfl⟩
    · exact ⟨rfl, rfl, rfl, rfl⟩

/-- The empty needle occurs in every haystack. -/
theorem charsHas_nil (hs : List Char) : charsHas [] hs = true := by
  induction hs with
  | nil => rfl
  | cons h t ih => simp [charsHas, charsLeads, ih]

/-- Concrete fixture: a case recognized by the dispatch. -/
def caseW : TestCase :=
  ⟨"t1", "playwright", "Example", "https://example.com", "Example"⟩

/-- Concrete fixture: a case with an unrecognized engine. -/
def caseU : TestCase :=
  ⟨"t2", "selenium", "Other", "https://example.org", ""⟩

/-- Concrete fixture: a world whose driver always returns title `Example Domain`. -/
def envW : Env :=
  ⟨fun _ => Except.ok "Example Domain", fun _ => "s", fun _ => "f",
   fun _ => 7, fun _ => "n1", fun _ => "n2"⟩

/-- Claim C1: for a case with the recognized engine whose navigation succeeds with
title `T`, the result is `pass` with `error = none` when `assert_title_contains`
occurs in `T` (the empty needle always matches), and otherwise `fail` with the exact
interpolated assertion message; in both outcomes `title = some T`. -/
theorem claim_C1 (env : Env) (c : TestCase) (T : String)
    (heng : c.engine = "playwright") (hnav : env.nav c = Except.ok T) :
    (pyIn c.assert_title_contains T = true →
      run_one env c =
        { id := c.id, engine := c.engine, name := c.name, url := c.url,
          status := "pass", started_at := env.started c, finished_at := env.finished c,
          duration_ms := env.durMs c, title := some T, error := none }) ∧
    (pyIn c.assert_title_contains T = false →
      run_one env c =
        { id := c.id, engine := c.engine, name := c.name, url := c.url,
          status := "fail", started_at := env.started c, finished_at := env.finished c,
          duration_ms := env.durMs c, title := some T,
          error := some ("Title assertion failed. Expected to contain: \x27"
            ++ c.assert_title_contains ++ "\x27, Actual: \x27" ++ T ++ "\x27") }) ∧
    (run_one env c).title = some T ∧
    pyIn "" T = true := by
  have h1 : run_one env c =
      run_case_playwright c (Except.ok T) (env.started c) (env.finished c) (env.durMs c) := by
    simp [run_one, heng, hnav]
  rw [h1]
  unfold run_case_playwright
  refine ⟨?_, ?_, ?_, ?_⟩
  · intro hp; simp [hp]
  · intro hp; simp [hp]
  · by_cases hp : pyIn c.assert_title_contains T <;> simp [hp]
  · have h0 : ("" : String).toList = [] := rfl
    unfold pyIn
    rw [h0]
    exact charsHas_nil _

/-- Claim C1 witness: the fixture case passes against title `Example Domain`. -/
theorem claim_C1_witness :
    pyIn caseW.assert_title_contains "Example Domain" = true ∧
    run_one envW caseW =
      { id := "t1", engine := "playwright", name := "Example",
        url := "https://example.com", status := "pass", started_at := "s",
        finished_at := "f", duration_ms := 7, title := some "Example Domain",
        error := none } :=
  ⟨by decide, (claim_C1 envW caseW "Example Domain" rfl rfl).1 (by decide)⟩

/-- Claim C2: an unrecognized engine yields an `error` result with the interpolated
`Unsupported engine` message and `durationMs = 0`, and the page driver is never
invoked for such a case: the instrumented driver-invocation counter counts only
cases whose engine is `playwright`, so a suite of one unsupported case invokes the
driver zero times. -/
theorem claim_C2 (env : Env) (c : TestCase) (h : c.engine ≠ "playwright") :
    run_one env c =
      { id := c.id, engine := c.engine, name := c.name, url := c.url,
        status := "error", started_at := env.now1 c, finished_at := env.now2 c,
        duration_ms := 0, title := none,
        error := some ("Unsupported engine: " ++ c.engine) } ∧
    (∀ cases, (run_all_instr env cases).2 =
      (cases.filter (fun x => x.engine == "playwright")).length) ∧
    (run_all_instr env [c]).2 = 0 := by
  have hcount : ∀ cases : List TestCase, (run_all_instr env cases).2 =
      (cases.filter (fun x => x.engine == "playwright")).length := by
    intro cases
    induction cases with
    | nil => rfl
    | cons x rest ih =>
      by_cases hx : x.engine = "playwright"
      · simp [run_all_instr, hx, List.filter_cons, ih]
      · simp [run_all_instr, hx, List.filter_cons, ih]
  refine ⟨by simp [run_one, h, unsupported_result], hcount, ?_⟩
  rw [hcount]
  simp [List.filter_cons, h]

/-- Claim C2 witness: the `selenium` fixture case produces the error record and a
singleton suite of it invokes the driver zero times. -/
theorem claim_C2_witness :
    run_one envW caseU =
      { id := "t2", engine := "selenium", name := "Other",
        url := "https://example.org", status := "error", started_at := "n1",
        finished_at := "n2", duration_ms := 0, title := none,
        error := some "Unsupported engine: selenium" } ∧
    (run_all_instr envW [caseU]).2 = 0 :=
  ⟨(claim_C2 envW caseU (by decide)).1, (claim_C2 envW caseU (by decide)).2.2⟩

/-- Claim C3: a driver exception is converted to a returned `error` result with the
exception text and `title = none`; `run_all` is a total per-case map, so one case's
driver failure never prevents any other case from producing its result and the
suite always yields one result per case. -/
theorem claim_C3 :
    (∀ (c : TestCase) (e s f : String) (d : Nat),
      run_case_playwright c (Except.error e) s f d =
        { id := c.id, engine := c.engine, name := c.name, url := c.url,
          status := "error", started_at := s, finished_at := f,
          duration_ms := d, title := none, error := some e }) ∧
    (∀ (env : Env) (cases : List TestCase),
      run_all env cases = cases.map (run_one env)) ∧
    (∀ (env : Env) (cases : List TestCase),
      (run_all env cases).length = cases.length) := by
  refine ⟨fun c e s f d => rfl, run_all_eq_map, fun env cases => ?_⟩
  rw [run_all_eq_map]
  simp

/-- Claim C4: `run_all` returns exactly one result per case, in input order, the
i-th result copying the i-th case's `id`, `engine`, `name` and `url`. -/
theorem claim_C4 (env : Env) (cases : List TestCase) :
    (run_all env cases).length = cases.length ∧
    ∀ (i : Nat) (h1 : i < cases.length) (h2 : i < (run_all env cases).length),
      ((run_all env cases).get ⟨i, h2⟩).id = (cases.get ⟨i, h1⟩).id ∧
      ((run_all env cases).get ⟨i, h2⟩).engine = (cases.get ⟨i, h1⟩).engine ∧
      ((run_all env cases).get ⟨i, h2⟩).name = (cases.get ⟨i, h1⟩).name ∧
      ((run_all env cases).get ⟨i, h2⟩).url = (cases.get ⟨i, h1⟩).url := by
  have hlen : (run_all env cases).length = cases.length := by
    rw [run_all_eq_map]; simp
  refine ⟨hlen, ?_⟩
  intro i h1 h2
  have hget : (run_all env cases).get ⟨i, h2⟩ = run_one env (cases.get ⟨i, h1⟩) := by
    simp only [run_all_eq_map, List.get_eq_getElem, List.getElem_map]
  rw [hget]
  exact run_one_copies env (cases.get ⟨i, h1⟩)

/-- Claim C4 witness: a two-case suite has two results and the second result copies
the second case's identifying fields. -/
theorem claim_C4_witness :
    (run_all envW [caseW, caseU]).length = 2 ∧
    ((run_all envW [caseW, caseU]).get ⟨1, by decide⟩).id =
      (([caseW, caseU] : List TestCase).get ⟨1, by decide⟩).id :=
  ⟨(claim_C4 envW [caseW, caseU]).1,
   ((claim_C4 envW [caseW, caseU]).2 1 (by decide) (by decide)).1⟩

/-- A JSON value, as produced by `json.loads` and consumed by `json.dump`. -/
inductive JVal where
  | null
  | bool (b : Bool)
  | num (n : Int)
  | str (s : String)
  | arr (xs : List JVal)
  | obj (fields : List (String × JVal))

/-- State of the history file on disk: absent, present but rejected by
`json.loads`, or parsed to a JSON value. -/
inductive Store where
  | absent
  | unreadable
  | parsed (v : JVal)

/-- `_read_json` of `src/web/app.py` (lines 31-38): the default when the path is
missing or either opening or parsing raises. -/
def readJsonFile (st : Store) (default : JVal) : JVal :=
  match st with
  | Store.absent => default
  | Store.unreadable => default
  | Store.parsed v => v

/-- `get_runs` of `src/web/app.py` (lines 41-43). -/
def get_runs (st : Store) : List JVal :=
  match readJsonFile st (JVal.arr []) with
  | JVal.arr xs => xs
  | _ => []

/-- `get_latest_run` of `src/web/app.py` (lines 46-48): `runs[-1] if runs else None`. -/
def get_latest_run (st : Store) : Option JVal :=
  (get_runs st).getLast?

/-- Python `k in d` for a JSON object's fields. -/
def objHas (fields : List (String × JVal)) (k : String) : Bool :=
  fields.any (fun p => p.1 == k)

/-- The legacy-format heuristic of `append_run_history` (lines 78-85 of
`src/main.py`): a mapping containing `id` and `status` but not `results`. -/
def isLegacyFirst (v : JVal) : Bool :=
  match v with
  | JVal.obj fs => objHas fs "id" && objHas fs "status" && !(objHas fs "results")
  | _ => false

/-- What `json.loads` yields inside `append_run_history` after
`ensure_history_file`: an absent file was just initialized to `[]`, and an
unreadable one falls to the `except` arm's `[]` (lines 51-54 and 72-75). -/
def loadExisting (st : Store) : JVal :=
  match st with
  | Store.absent => JVal.arr []
  | Store.unreadable => JVal.arr []
  | Store.parsed v => v

/-- Lines 78-85 of `src/main.py`: a nonempty list whose first element is
legacy-shaped is reset to `[]`. -/
def migrateLegacy (v : JVal) : JVal :=
  match v with
  | JVal.arr (f :: rest) =>
    if isLegacyFirst f then JVal.arr [] else JVal.arr (f :: rest)
  | other => other

/-- Lines 87-88 of `src/main.py`: non-list contents are reset to `[]`. -/
def coerceList (v : JVal) : List JVal :=
  match v with
  | JVal.arr xs => xs
  | _ => []

/-- The `sum(1 for r in results if r.status == s)` counters (lines 90-92). -/
def countStatus (results : List TestResult) (s : String) : Nat :=
  (results.filter (fun r => r.status == s)).length

/-- JSON encoding of an optional string (`None` becomes JSON `null`). -/
def jOptStr (o : Option String) : JVal :=
  match o with
  | none => JVal.null
  | some s => JVal.str s

/-- `asdict` of a `TestResult`, fields in dataclass order. -/
def resultToJson (r : TestResult) : JVal :=
  JVal.obj [("id", JVal.str r.id), ("engine", JVal.str r.engine),
    ("name", JVal.str r.name), ("url", JVal.str r.url),
    ("status", JVal.str r.status), ("started_at", JVal.str r.started_at),
    ("finished_at", JVal.str r.finished_at),
    ("duration_ms", JVal.num (r.duration_ms : Int)),
    ("title", jOptStr r.title), ("error", jOptStr r.error)]

/-- The `run_record` dict built by `append_run_history` (lines 94-98). -/
def runRecordJson (executedAt : String) (results : List TestResult) : JVal :=
  JVal.obj [("executed_at", JVal.str executedAt),
    ("summary", JVal.obj
      [("pass", JVal.num (countStatus results "pass" : Int)),
       ("fail", JVal.num (countStatus results "fail" : Int)),
       ("error", JVal.num (countStatus results "error" : Int))]),
    ("results", JVal.arr (results.map resultToJson))]

/-- `append_run_history` of `src/main.py` (lines 57-105), as a transformer of the
on-disk store; `executedAt` is the `utc_now_iso()` read at aggregation time. -/
def append_run_history (st : Store) (results : List TestResult)
    (executedAt : String) : Store :=
  Store.parsed (JVal.arr
    (coerceList (migrateLegacy (loadExisting st))
      ++ [runRecordJson executedAt results]))

/-- Shape test: is this JSON value a list? -/
def JVal.isArr : JVal → Bool
  | JVal.arr _ => true
  | _ => false

/-- `dict.get k` on a JSON object (parsed objects have unique keys, so the first
binding is the binding). -/
def jGet (v : JVal) (k : String) : Option JVal :=
  match v with
  | JVal.obj fs => (fs.find? (fun p => p.1 == k)).map (fun p => p.2)
  | _ => none

/-- Concrete fixture: a legacy-format history store, a flat list of two
result-shaped objects. -/
def legacyStore : Store :=
  Store.parsed (JVal.arr
    [JVal.obj [("id", JVal.str "t1"), ("status", JVal.str "pass")],
     JVal.obj [("id", JVal.str "t2"), ("status", JVal.str "fail")]])

/-- Claim C5 counterexample: on a legacy-format store (first element is
legacy-shaped), `get_runs` does not behave as if history started empty — it
returns the legacy entries, not the empty sequence. -/
theorem claim_C5_counterexample :
    isLegacyFirst (JVal.obj [("id", JVal.str "t1"), ("status", JVal.str "pass")])
      = true ∧
    ¬ (get_runs legacyStore = []) := by
  refine ⟨rfl, ?_⟩
  simp [get_runs, legacyStore, readJsonFile]

/-- Claim C5 (amended): reading history never raises — absent, unreadable, or
non-list stores read as the empty sequence; a legacy-format history, being
list-shaped, is returned verbatim by `get_runs`, but a subsequent
`append_run_history` discards it, so one append on a legacy store yields exactly
one record, not N+1. -/
theorem claim_C5 :
    get_runs Store.absent = [] ∧
    get_runs Store.unreadable = [] ∧
    (∀ v : JVal, v.isArr = false → get_runs (Store.parsed v) = []) ∧
    (∀ xs : List JVal, get_runs (Store.parsed (JVal.arr xs)) = xs) ∧
    (∀ (f : JVal) (rest : List JVal) (results : List TestResult) (t : String),
      isLegacyFirst f = true →
      append_run_history (Store.parsed (JVal.arr (f :: rest))) results t =
        Store.parsed (JVal.arr [runRecordJson t results]) ∧
      get_runs (append_run_history (Store.parsed (JVal.arr (f :: rest))) results t)
        = [runRecordJson t results]) := by
  refine ⟨rfl, rfl, ?_, fun xs => rfl, ?_⟩
  · intro v hv
    cases v <;> simp_all [JVal.isArr, get_runs, readJsonFile]
  · intro f rest results t hf
    constructor
    · simp [append_run_history, loadExisting, migrateLegacy, coerceList, hf]
    · simp [append_run_history, loadExisting, migrateLegacy, coerceList,
        get_runs, readJsonFile, hf]

/-- Claim C5 witness: a non-list store reads empty, and one append on a singleton
legacy store yields exactly one record. -/
theorem claim_C5_witness :
    JVal.isArr JVal.null = false ∧
    get_runs (Store.parsed JVal.null) = [] ∧
    isLegacyFirst (JVal.obj [("id", JVal.str "a"), ("status", JVal.str "pass")])
      = true ∧
    get_runs (append_run_history (Store.parsed (JVal.arr
        [JVal.obj [("id", JVal.str "a"), ("status", JVal.str "pass")]])) [] "T")
      = [runRecordJson "T" []] :=
  ⟨rfl, claim_C5.2.2.1 JVal.null rfl, rfl,
   (claim_C5.2.2.2.2
     (JVal.obj [("id", JVal.str "a"), ("status", JVal.str "pass")]) [] [] "T"
     rfl).2⟩

/-- Claim C6: appending to a well-formed history (first record not legacy-shaped)
appends exactly one run record at the end, leaving earlier records unchanged, and
the appended record's summary counts are the partition of its results by status,
summing to the number of results. -/
theorem claim_C6 (xs : List JVal) (results : List TestResult) (t : String)
    (hwf : ∀ f, xs.head? = some f → isLegacyFirst f = false) :
    append_run_history (Store.parsed (JVal.arr xs)) results t =
      Store.parsed (JVal.arr (xs ++ [runRecordJson t results])) ∧
    get_runs (append_run_history (Store.parsed (JVal.arr xs)) results t) =
      xs ++ [runRecordJson t results] ∧
    (get_runs (append_run_history (Store.parsed (JVal.arr xs)) results t)).length
      = xs.length + 1 ∧
    (get_runs (append_run_history (Store.parsed (JVal.arr xs)) results t)).take
      xs.length = xs ∧
    jGet (runRecordJson t results) "summary" =
      some (JVal.obj
        [("pass", JVal.num (countStatus results "pass" : Int)),
         ("fail", JVal.num (countStatus results "fail" : Int)),
         ("error", JVal.num (countStatus results "error" : Int))]) ∧
    ((∀ r ∈ results, r.status = "pass" ∨ r.status = "fail" ∨ r.status = "error") →
      countStatus results "pass" + countStatus results "fail"
        + countStatus results "error" = results.length) := by
  have hmain : append_run_history (Store.parsed (JVal.arr xs)) results t =
      Store.parsed (JVal.arr (xs ++ [runRecordJson t results])) := by
    cases xs with
    | nil => rfl
    | cons f rest =>
      have hf : isLegacyFirst f = false := hwf f rfl
      simp [append_run_history, loadExisting, migrateLegacy, coerceList, hf]
  have hruns : get_runs (append_run_history (Store.parsed (JVal.arr xs)) results t)
      = xs ++ [runRecordJson t results] := by
    rw [hmain]; rfl
  refine ⟨hmain, hruns, ?_, ?_, rfl, ?_⟩
  · rw [hruns]; simp
  · rw [hruns]; simp
  · clear hmain hruns
    induction results with
    | nil => intro _; rfl
    | cons r rest ih =>
      intro hall
      have hr := hall r (List.mem_cons_self r rest)
      have ih2 := ih (fun x hx => hall x (List.mem_cons_of_mem r hx))
      simp only [countStatus] at ih2 ⊢
      rcases hr with h | h | h <;> simp [List.filter_cons, h] <;> omega

/-- Claim C6 witness: appending one passing result to a one-record history yields
two records, the old one unchanged in front, with summary counts summing to 1. -/
theorem claim_C6_witness :
    get_runs (append_run_history (Store.parsed (JVal.arr [runRecordJson "T0" []]))
        [⟨"t1", "playwright", "Example", "https://example.com", "pass", "s", "f", 7,
          some "Example Domain", none⟩] "T1")
      = [runRecordJson "T0" [],
         runRecordJson "T1"
           [⟨"t1", "playwright", "Example", "https://example.com", "pass", "s", "f", 7,
             some "Example Domain", none⟩]] ∧
    countStatus
        [⟨"t1", "playwright", "Example", "https://example.com", "pass", "s", "f", 7,
          some "Example Domain", none⟩] "pass"
      + countStatus
        [⟨"t1", "playwright", "Example", "https://example.com", "pass", "s", "f", 7,
          some "Example Domain", none⟩] "fail"
      + countStatus
        [⟨"t1", "playwright", "Example", "https://example.com", "pass", "s", "f", 7,
          some "Example Domain", none⟩] "error" = 1 := by
  constructor
  · exact (claim_C6 [runRecordJson "T0" []] _ "T1"
      (by intro f hf
          have h2 := Option.some.inj hf
          rw [← h2]
          rfl)).2.1
  · exact (claim_C6 [runRecordJson "T0" []] _ "T1"
      (by intro f hf
          have h2 := Option.some.inj hf
          rw [← h2]
          rfl)).2.2.2.2.2
      (by intro r hr
          simp at hr
          rw [hr]
          left
          rfl)

/-- Python truthiness of a JSON value (`if latest_run`, `x or default`). -/
def pyTruthy (v : JVal) : Bool :=
  match v with
  | JVal.null => false
  | JVal.bool b => b
  | JVal.num n => n != 0
  | JVal.str s => s != ""
  | JVal.arr xs => !xs.isEmpty
  | JVal.obj fs => !fs.isEmpty

/-- `isinstance(v, dict)`. -/
def JVal.isObj : JVal → Bool
  | JVal.obj _ => true
  | _ => false

/-- `latest_run.get("summary", {}) or {}` (line 68 of `src/web/app.py`). -/
def summaryOf (v : JVal) : JVal :=
  let s := (jGet v "summary").getD (JVal.obj [])
  if pyTruthy s then s else JVal.obj []

/-- `int(s.get(k, 0) or 0)` (lines 69-71 of `src/web/app.py`): `none` models a
raise — `.get` on a non-mapping raises `AttributeError`, and `int()` of a
non-numeric value raises (numeric strings are not modelled; the stored summaries
are always integers); `int()` of a boolean is its 0/1 value. -/
def getCount (s : JVal) (k : String) : Option Int :=
  match s with
  | JVal.obj fs =>
    let x := ((fs.find? (fun p => p.1 == k)).map (fun p => p.2)).getD (JVal.num 0)
    match (if pyTruthy x then x else JVal.num 0) with
    | JVal.num n => some n
    | JVal.bool b => some (if b then 1 else 0)
    | _ => none
  | _ => none

/-- `int(round((p / denom) * 100)) if denom else 0` (line 74 of `src/web/app.py`),
computed exactly on rationals; Python's `round` is round-half-to-even. -/
def pyRound100 (p denom : Int) : Int :=
  if denom = 0 then 0
  else if 2 * (100 * p % denom) < denom then 100 * p / denom
  else if denom < 2 * (100 * p % denom) then 100 * p / denom + 1
  else if (100 * p / denom) % 2 = 0 then 100 * p / denom
  else 100 * p / denom + 1

/-- The dict returned by `calc_cards`. -/
structure Cards where
  total : Int
  pass : Int
  fail : Int
  new : Int
  rate : Int
  deriving DecidableEq

/-- `calc_cards` of `src/web/app.py` (lines 63-78); `none` exactly when the Python
function would raise on malformed summary contents. -/
def calc_cards (latest_run : Option JVal) (cases : List TestCase) : Option Cards :=
  let total : Int := (cases.length : Int)
  let counts : Option (Int × Int × Int) :=
    match latest_run with
    | some v =>
      if pyTruthy v && v.isObj then
        match getCount (summaryOf v) "pass", getCount (summaryOf v) "fail",
            getCount (summaryOf v) "error" with
        | some p, some f, some e => some (p, f, e)
        | _, _, _ => none
      else some (0, 0, 0)
    | none => some (0, 0, 0)
  counts.map (fun c =>
    { total := total, pass := c.1, fail := c.2.1, new := total,
      rate := pyRound100 c.1 (c.1 + c.2.1 + c.2.2) })

/-- `x or 0` on an integer JSON value is that value. -/
theorem truthyNumIdem (p : Int) :
    (if pyTruthy (JVal.num p) then JVal.num p else JVal.num 0) = JVal.num p := by
  by_cases h : p = 0
  · rw [h]; rfl
  · simp [pyTruthy, h]

/-- Reading the three counters out of an integer-valued summary object. -/
theorem getCount_pfe (p f e : Int) :
    getCount (JVal.obj [("pass", JVal.num p), ("fail", JVal.num f),
      ("error", JVal.num e)]) "pass" = some p ∧
    getCount (JVal.obj [("pass", JVal.num p), ("fail", JVal.num f),
      ("error", JVal.num e)]) "fail" = some f ∧
    getCount (JVal.obj [("pass", JVal.num p), ("fail", JVal.num f),
      ("error", JVal.num e)]) "error" = some e := by
  refine ⟨?_, ?_, ?_⟩ <;> simp [getCount, List.find?, truthyNumIdem]

/-- The rounded rate is within half a unit of the exact percentage. -/
theorem pyRound100_near (p denom : Int) (hd : 0 < denom) :
    2 * |100 * p - pyRound100 p denom * denom| ≤ denom := by
  have hne : denom ≠ 0 := ne_of_gt hd
  have hdecomp : denom * (100 * p / denom) + 100 * p % denom = 100 * p :=
    Int.ediv_add_emod (100 * p) denom
  have hr0 : 0 ≤ 100 * p % denom := Int.emod_nonneg _ hne
  have hrlt : 100 * p % denom < denom := Int.emod_lt_of_pos _ hd
  unfold pyRound100
  rw [if_neg hne]
  set q := 100 * p / denom with hq
  set r := 100 * p % denom with hr
  rw [← hdecomp]
  by_cases h1 : 2 * r < denom
  · rw [if_pos h1]
    have heq : denom * q + r - q * denom = r := by ring
    rw [heq, abs_of_nonneg hr0]
    omega
  · rw [if_neg h1]
    by_cases h2 : denom < 2 * r
    · rw [if_pos h2]
      have heq : denom * q + r - (q + 1) * denom = r - denom := by ring
      rw [heq, abs_of_nonpos (by omega)]
      omega
    · rw [if_neg h2]
      by_cases h3 : q % 2 = 0
      · rw [if_pos h3]
        have heq : denom * q + r - q * denom = r := by ring
        rw [heq, abs_of_nonneg hr0]
        omega
      · rw [if_neg h3]
        have heq : denom * q + r - (q + 1) * denom = r - denom := by ring
        rw [heq, abs_of_nonpos (by omega)]
        omega

/-- Claim C9: `calc_cards` returns `total = len(cases)`, `pass`/`fail` from the
latest run's summary, `new = total`, and `rate` the half-to-even rounding of
`100 * pass / (pass + fail + error)` (within half a unit of the exact percentage,
and `0` when the denominator is zero); on summary `{pass: 3, fail: 1, error: 0}`
with 10 cases it returns `{total: 10, pass: 3, fail: 1, new: 10, rate: 75}`. -/
theorem claim_C9 :
    (∀ (cases : List TestCase) (p f e : Int) (extra : List (String × JVal)),
      calc_cards (some (JVal.obj (("summary", JVal.obj
          [("pass", JVal.num p), ("fail", JVal.num f), ("error", JVal.num e)])
          :: extra))) cases =
        some { total := (cases.length : Int), pass := p, fail := f,
               new := (cases.length : Int), rate := pyRound100 p (p + f + e) }) ∧
    (∀ p : Int, pyRound100 p 0 = 0) ∧
    (∀ p denom : Int, 0 < denom →
      2 * |100 * p - pyRound100 p denom * denom| ≤ denom) ∧
    calc_cards (some (JVal.obj [("summary", JVal.obj [("pass", JVal.num 3),
        ("fail", JVal.num 1), ("error", JVal.num 0)])]))
      (List.replicate 10 caseW) =
      some { total := 10, pass := 3, fail := 1, new := 10, rate := 75 } := by
  refine ⟨?_, fun p => rfl, pyRound100_near, by decide⟩
  intro cases p f e extra
  obtain ⟨h1, h2, h3⟩ := getCount_pfe p f e
  have hsum : summaryOf (JVal.obj (("summary", JVal.obj
      [("pass", JVal.num p), ("fail", JVal.num f), ("error", JVal.num e)])
      :: extra)) = JVal.obj
      [("pass", JVal.num p), ("fail", JVal.num f), ("error", JVal.num e)] := by
    simp [summaryOf, jGet, List.find?, pyTruthy]
  simp [calc_cards, hsum, h1, h2, h3, pyTruthy, JVal.isObj]

/-- Claim C9 witness: with summary counts 3/1/0 the denominator is positive and
the rounded rate 75 is within half a unit of the exact percentage. -/
theorem claim_C9_witness :
    (0 : Int) < 4 ∧ 2 * |100 * 3 - pyRound100 3 4 * 4| ≤ 4 :=
  ⟨by decide, claim_C9.2.2.1 3 4 (by decide)⟩

/-- Claim C10: with no latest run, or a latest run whose summary is absent, null,
or has null or missing count fields, `calc_cards` does not raise and returns
`pass = 0`, `fail = 0`, `rate = 0`, `total = new = len(cases)`. -/
theorem claim_C10 :
    (∀ cases : List TestCase, calc_cards none cases =
      some { total := (cases.length : Int), pass := 0, fail := 0,
             new := (cases.length : Int), rate := 0 }) ∧
    (∀ (cases : List TestCase) (t : String) (rs : List JVal),
      calc_cards (some (JVal.obj [("executed_at", JVal.str t),
          ("results", JVal.arr rs)])) cases =
        some { total := (cases.length : Int), pass := 0, fail := 0,
               new := (cases.length : Int), rate := 0 }) ∧
    (∀ (cases : List TestCase) (t : String),
      calc_cards (some (JVal.obj [("executed_at", JVal.str t),
          ("summary", JVal.null)])) cases =
        some { total := (cases.length : Int), pass := 0, fail := 0,
               new := (cases.length : Int), rate := 0 }) ∧
    (∀ cases : List TestCase,
      calc_cards (some (JVal.obj [("summary", JVal.obj
          [("pass", JVal.null), ("fail", JVal.null), ("error", JVal.null)])]))
        cases =
        some { total := (cases.length : Int), pass := 0, fail := 0,
               new := (cases.length : Int), rate := 0 }) ∧
    (∀ cases : List TestCase,
      calc_cards (some (JVal.obj [("summary", JVal.obj [])])) cases =
        some { total := (cases.length : Int), pass := 0, fail := 0,
               new := (cases.length : Int), rate := 0 }) := by
  refine ⟨?_, ?_, ?_, ?_, ?_⟩ <;> intros <;>
    simp [calc_cards, summaryOf, jGet, getCount, pyTruthy, JVal.isObj,
      List.find?, pyRound100]

/-- One artifact object from the GitHub artifacts listing, as read by
`fetch_latest_test_history_from_github`: `a.get("name")`, the truth value of
`a.get("expired", False)`, `a.get("updated_at", "")`, and
`a.get("archive_download_url")`. -/
structure Artifact where
  name : Option String
  expired : Bool
  updated_at : String
  archive_download_url : Option String
  deriving DecidableEq

/-- Observed remote interaction for one sync attempt: the raw environment
variables, the artifacts-list response, the zip-download response, the zip's
member names, and the parse outcome of each member's bytes (`Except.error` when
`json.loads` raises). -/
structure GhEnv where
  owner : String
  repo : String
  token : String
  listStatus : Nat
  listBody : String
  artifacts : List Artifact
  zipStatus : Nat
  zipBody : String
  zipNames : List String
  memberJson : String → Except String JVal

/-- Python `repr` of a list of strings, as interpolated into the member-not-found
message (quote-escaping for strings containing quotes is not modelled). -/
def pyReprList (names : List String) : String :=
  "[" ++ String.intercalate ", " (names.map (fun n => "\x27" ++ n ++ "\x27")) ++ "]"

/-- Line 95 of `src/web/app.py`. -/
def msgMissingConfig : String :=
  "GITHUB_OWNER / GITHUB_REPO / GITHUB_TOKEN 환경변수가 필요합니다."

/-- Line 106 of `src/web/app.py`. -/
def msgListFailed (status : Nat) (body : String) : String :=
  "Artifacts 목록 조회 실패: " ++ toString status ++ " " ++ body.take 500

/-- Line 114 of `src/web/app.py`. -/
def msgNotFound : String :=
  "test-history artifact를 찾지 못했습니다. (Actions 실행 후 artifact 업로드 확인 필요)"

/-- Line 120 of `src/web/app.py`. -/
def msgNoArchiveUrl : String := "archive_download_url이 없습니다."

/-- Line 124 of `src/web/app.py`. -/
def msgZipFailed (status : Nat) (body : String) : String :=
  "Artifact zip 다운로드 실패: " ++ toString status ++ " " ++ body.take 500

/-- Line 142 of `src/web/app.py`. -/
def msgMemberNotFound (names : List String) : String :=
  "zip 안에서 test_history.json을 찾지 못했습니다. zip entries: "
    ++ pyReprList (names.take 20)

/-- Line 148 of `src/web/app.py`. -/
def msgParseFailed (e : String) : String := "history JSON 파싱 실패: " ++ e

/-- Line 151 of `src/web/app.py`. -/
def msgNotList : String := "history JSON이 list 형식이 아닙니다."

/-- `candidates.sort(key=..., reverse=True); candidates[0]` (lines 116-117): the
first, in listing order, of the artifacts with the maximal `updated_at` (Python's
sort is stable, and `reverse=True` keeps equal keys in original order). -/
def pickLatest (a : Artifact) : List Artifact → Artifact
  | [] => a
  | b :: rest => pickLatest (if a.updated_at < b.updated_at then b else a) rest

/-- The zip-member selection of lines 129-139: the exact paths
`history/test_history.json` then `test_history.json`, then a suffix scan. -/
def findTarget (names : List String) : Option String :=
  if names.contains "history/test_history.json" then
    some "history/test_history.json"
  else if names.contains "test_history.json" then some "test_history.json"
  else names.find? (fun n => n.endsWith "test_history.json")

/-- `fetch_latest_test_history_from_github` of `src/web/app.py` (lines 84-153):
the Python `(data, None)` is `Except.ok data`, `(None, err)` is
`Except.error err`. -/
def fetch_latest_test_history_from_github (env : GhEnv) :
    Except String (List JVal) :=
  if pyStrip env.owner = "" ∨ pyStrip env.repo = "" ∨ pyStrip env.token = "" then
    Except.error msgMissingConfig
  else if env.listStatus ≠ 200 then
    Except.error (msgListFailed env.listStatus env.listBody)
  else
    match env.artifacts.filter
        (fun a => a.name == some "test-history" && !a.expired) with
    | [] => Except.error msgNotFound
    | c :: cs =>
      match (pickLatest c cs).archive_download_url with
      | none => Except.error msgNoArchiveUrl
      | some u =>
        if u = "" then Except.error msgNoArchiveUrl
        else if env.zipStatus ≠ 200 then
          Except.error (msgZipFailed env.zipStatus env.zipBody)
        else
          match findTarget env.zipNames with
          | none => Except.error (msgMemberNotFound env.zipNames)
          | some target =>
            match env.memberJson target with
            | Except.error e => Except.error (msgParseFailed e)
            | Except.ok (JVal.arr xs) => Except.ok xs
            | Except.ok _ => Except.error msgNotList

/-- `save_github_history_to_local` (lines 156-159): overwrite the store with the
fetched list. -/
def save_github_history_to_local (data : List JVal) : Store :=
  Store.parsed (JVal.arr data)

/-- `sync_github` of `src/web/app.py` (lines 162-171), as a store transformer
paired with the flashed error diagnostic (`none` on success). -/
def sync_github (env : GhEnv) (st : Store) : Store × Option String :=
  match fetch_latest_test_history_from_github env with
  | Except.error e => (st, some e)
  | Except.ok data => (save_github_history_to_local data, none)

/-- Claim C7: when the fetch fails at any protocol step — in particular when the
artifact list has no non-expired entry named exactly `test-history` — `sync_github`
flashes the human-readable diagnostic and leaves the local store untouched; the
store is overwritten (with the parsed list) only when every step succeeded. -/
theorem claim_C7 (env : GhEnv) (st : Store) :
    ((env.artifacts.filter
        (fun a => a.name == some "test-history" && !a.expired)) = [] →
      pyStrip env.owner ≠ "" → pyStrip env.repo ≠ "" → pyStrip env.token ≠ "" →
      env.listStatus = 200 →
      fetch_latest_test_history_from_github env = Except.error msgNotFound ∧
      sync_github env st = (st, some msgNotFound)) ∧
    (∀ e, fetch_latest_test_history_from_github env = Except.error e →
      sync_github env st = (st, some e)) ∧
    (∀ data, fetch_latest_test_history_from_github env = Except.ok data →
      sync_github env st = (Store.parsed (JVal.arr data), none)) := by
  refine ⟨?_, ?_, ?_⟩
  · intro hfilter ho hr ht hls
    have hfetch : fetch_latest_test_history_from_github env
        = Except.error msgNotFound := by
      unfold fetch_latest_test_history_from_github
      rw [if_neg (by simp [ho, hr, ht]), if_neg (by simp [hls]), hfilter]
    exact ⟨hfetch, by simp [sync_github, hfetch]⟩
  · intro e hf
    simp [sync_github, hf]
  · intro data hf
    simp [sync_github, hf, save_github_history_to_local]

/-- Concrete fixture: a remote exchange whose listing succeeds but contains only an
expired `test-history` artifact and an unrelated one. -/
def ghEnvW : GhEnv :=
  { owner := "o", repo := "r", token := "t", listStatus := 200, listBody := "",
    artifacts :=
      [{ name := some "test-history", expired := true,
         updated_at := "2024-01-01T00:00:00Z", archive_download_url := some "u" },
       { name := some "other", expired := false, updated_at := "",
         archive_download_url := none }],
    zipStatus := 200, zipBody := "", zipNames := [],
    memberJson := fun _ => Except.error "boom" }

/-- Claim C7 witness: on the fixture exchange the fetch reports the not-found
diagnostic and the sync leaves an absent store absent. -/
theorem claim_C7_witness :
    fetch_latest_test_history_from_github ghEnvW = Except.error msgNotFound ∧
    sync_github ghEnvW Store.absent = (Store.absent, some msgNotFound) :=
  (claim_C7 ghEnvW Store.absent).1 rfl (by decide) (by decide) (by decide) rfl

/-- Python `dict` insertion: update the existing binding in place when the key is
present, otherwise append a new binding. -/
def dictInsert (d : List (String × String)) (k v : String) :
    List (String × String) :=
  if d.any (fun p => p.1 == k) then
    d.map (fun p => if p.1 == k then (k, v) else p)
  else d ++ [(k, v)]

/-- `dict(zip(headers, row))` (line 128 of `src/loaders/sheets_loader.py`):
truncating zip, Python dict insertion order. -/
def zipDict (headers row : List String) : List (String × String) :=
  (List.zip headers row).foldl (fun d p => dictInsert d p.1 p.2) []

/-- The header comparison of the row-local `_get` (line 134): case-insensitive and
whitespace-insensitive. -/
def keyMatches (k key : String) : Bool :=
  pyLower (pyStrip k) == pyLower (pyStrip key)

/-- The row-local `_get` (lines 132-136): the first cell whose header matches
`key`, stripped; an absent key resolves to the empty string.  Cells are already
strings here, so the `str(v)` coercion is the identity. -/
def resolveField (headers row : List String) (key : String) : String :=
  match (zipDict headers row).find? (fun p => keyMatches p.1 key) with
  | some p => pyStrip p.2
  | none => ""

/-- The body of the loader's row loop (lines 126-150): `none` is the `continue`
taken when the resolved `id` is empty. -/
def normalize_row (headers row : List String) : Option TestCase :=
  let tcId := resolveField headers row "id"
  if tcId = "" then none
  else some
    { id := tcId,
      engine := resolveField headers row "engine",
      name := resolveField headers row "name",
      url := resolveField headers row "url",
      assert_title_contains := resolveField headers row "assert_title_contains" }

/-- The tabular core of `load_cases_from_sheets` (lines 119-152), applied to the
fetched cell values: empty data loads nothing, otherwise strip the header row and
keep the normalized rows in source order. -/
def load_cases_from_values (values : List (List String)) : List TestCase :=
  match values with
  | [] => []
  | headerRow :: rows => rows.filterMap (normalize_row (headerRow.map pyStrip))

/-- A header cell `ID` (any case, already stripped) matches the same keys as
`id`. -/
theorem keyMatches_ID (key : String) : keyMatches "ID" key = keyMatches "id" key := by
  unfold keyMatches
  have h : pyLower (pyStrip "ID") = pyLower (pyStrip "id") := by decide
  rw [h]

/-- Field resolution agrees between the headers `ID` and `id`. -/
theorem resolveField_hdr (v : String) (rest : List String) (key : String) :
    resolveField ["ID"] (v :: rest) key = resolveField ["id"] (v :: rest) key := by
  unfold resolveField
  have hz1 : zipDict ["ID"] (v :: rest) = [("ID", v)] := rfl
  have hz2 : zipDict ["id"] (v :: rest) = [("id", v)] := rfl
  rw [hz1, hz2]
  by_cases h : keyMatches "id" key
  · simp [List.find?, keyMatches_ID, h]
  · simp [List.find?, keyMatches_ID, h]

/-- Row normalization agrees between the headers `ID` and `id`. -/
theorem normalize_row_hdr (row : List String) :
    normalize_row ["ID"] row = normalize_row ["id"] row := by
  cases row with
  | nil => rfl
  | cons v rest => simp only [normalize_row, resolveField_hdr]

/-- Claim C8: a row is dropped (silently, producing no error outcome) iff its
resolved `id` is empty after stripping; a row with only `id` populated is kept
with empty-string defaults for every other field; header matching is
case-insensitive and whitespace-insensitive (`"ID "` behaves as `id`); and
accepted rows preserve source row order. -/
theorem claim_C8 :
    (∀ headers row, normalize_row headers row = none ↔
      resolveField headers row "id" = "") ∧
    (∀ s : String, pyStrip s ≠ "" →
      load_cases_from_values
          [["id", "engine", "name", "url", "assert_title_contains"], [s]]
        = [{ id := pyStrip s, engine := "", name := "", url := "",
             assert_title_contains := "" }]) ∧
    (∀ rows : List (List String),
      load_cases_from_values (["ID "] :: rows)
        = load_cases_from_values (["id"] :: rows)) ∧
    (∀ (headers : List String) (r1 r2 : List (List String)),
      load_cases_from_values (headers :: (r1 ++ r2))
        = load_cases_from_values (headers :: r1)
          ++ load_cases_from_values (headers :: r2)) := by
  refine ⟨?_, ?_, ?_, ?_⟩
  · intro headers row
    constructor
    · intro h
      by_cases hid : resolveField headers row "id" = ""
      · exact hid
      · simp [normalize_row, hid] at h
    · intro h
      simp [normalize_row, h]
  · intro s hs
    have hmap : (["id", "engine", "name", "url", "assert_title_contains"].map
        pyStrip) = ["id", "engine", "name", "url", "assert_title_contains"] := by
      decide
    show ([[s]] : List (List String)).filterMap
        (normalize_row (["id", "engine", "name", "url",
          "assert_title_contains"].map pyStrip))
      = [{ id := pyStrip s, engine := "", name := "", url := "",
           assert_title_contains := "" }]
    rw [hmap]
    have hid : resolveField ["id", "engine", "name", "url",
        "assert_title_contains"] [s] "id" = pyStrip s := rfl
    have h2 : resolveField ["id", "engine", "name", "url",
        "assert_title_contains"] [s] "engine" = "" := rfl
    have h3 : resolveField ["id", "engine", "name", "url",
        "assert_title_contains"] [s] "name" = "" := rfl
    have h4 : resolveField ["id", "engine", "name", "url",
        "assert_title_contains"] [s] "url" = "" := rfl
    have h5 : resolveField ["id", "engine", "name", "url",
        "assert_title_contains"] [s] "assert_title_contains" = "" := rfl
    simp [List.filterMap, normalize_row, hid, h2, h3, h4, h5, hs]
  · intro rows
    have hmap1 : (["ID "].map pyStrip) = ["ID"] := by decide
    have hmap2 : (["id"].map pyStrip) = ["id"] := by decide
    show rows.filterMap (normalize_row (["ID "].map pyStrip))
        = rows.filterMap (normalize_row (["id"].map pyStrip))
    rw [hmap1, hmap2]
    induction rows with
    | nil => rfl
    | cons row rest ih =>
      simp only [List.filterMap_cons]
      rw [normalize_row_hdr row, ih]
  · intro headers r1 r2
    show (r1 ++ r2).filterMap (normalize_row (headers.map pyStrip))
        = r1.filterMap (normalize_row (headers.map pyStrip))
          ++ r2.filterMap (normalize_row (headers.map pyStrip))
    simp [List.filterMap_append]

/-- Claim C8 witness: the one-cell row `x1 ` under the standard header row loads
as the single case `x1` with empty-string defaults. -/
theorem claim_C8_witness :
    pyStrip "x1 " ≠ "" ∧
    load_cases_from_values
        [["id", "engine", "name", "url", "assert_title_contains"], ["x1 "]]
      = [{ id := "x1", engine := "", name := "", url := "",
           assert_title_contains := "" }] :=
  ⟨by decide, claim_C8.2.1 "x1 " (by decide)⟩

end QaAuto
